import Mathlib

/-!
Shallow embedding of the EVE meeting-assistant extraction pipeline.

The repository has three source files:
* `src/unnamed/part_000` — two React component variants; the second variant
  contains `generateLocalInsights` (the heuristic extractor) and
  `stopListening`; the first variant contains `generateFallbackInsights`,
  `generateSmartInsights` and `processAudioIntelligently`.
* `src/unnamed/part_001` — the Express backend with the `/api/analyze`
  endpoint.
* `src/src/App.jsx` — the variant with `processingMode` settings,
  `processAudio` and `processLocalFallback`.

Strings are embedded byte-for-byte as they appear in the source files
(including the mojibake sequences such as "idee√´n").  JavaScript string
`length` counts UTF-16 code units while Lean counts characters; all inputs
used in concrete evaluations below are within the Basic Multilingual Plane
and the keyword thresholds are only ever compared on ASCII text, where the
two notions agree.
-/

namespace Eve

/-- Boolean contiguous-sublist test on character lists. -/
def isInfixB (needle : List Char) : List Char → Bool
  | [] => needle.isEmpty
  | c :: rest => needle.isPrefixOf (c :: rest) || isInfixB needle rest

/-- Model of JavaScript `hay.includes(needle)` (substring containment). -/
def substrB (needle hay : String) : Bool :=
  isInfixB needle.toList hay.toList

/-- Whitespace characters trimmed by JavaScript `trim()` and split by
`/\s+/` (the JavaScript classes also cover some exotic Unicode spaces,
which never occur in this pipeline). -/
def isJsWhitespace (c : Char) : Bool :=
  c = ' ' || c = '\t' || c = '\n' || c = '\r'

/-- Model of JavaScript `s.trim()`. -/
def jsTrim (s : String) : String :=
  String.mk
    (((s.toList.dropWhile isJsWhitespace).reverse.dropWhile
      isJsWhitespace).reverse)

/-- Model of JavaScript `s.toLowerCase()` (ASCII case mapping; every
case-bearing character in the keyword sets and the inputs below is
ASCII). -/
def jsToLower (s : String) : String :=
  String.mk (s.toList.map Char.toLower)

/-- Fuel-driven worker for `jsSplitOnRuns`.  A maximal run of separator
characters ends the current piece, exactly as a JavaScript
`split(/[c]+/)` does; boundary runs contribute empty pieces. -/
def jsSplitRunsAux (p : Char → Bool) : Nat → List Char → List Char → List String
  | _, [], cur => [String.mk cur.reverse]
  | 0, _, cur => [String.mk cur.reverse]
  | fuel + 1, c :: rest, cur =>
    if p c then
      String.mk cur.reverse :: jsSplitRunsAux p fuel (rest.dropWhile p) []
    else
      jsSplitRunsAux p fuel rest (c :: cur)

/-- Model of JavaScript `s.split(regex)` where the regex matches one or
more characters satisfying `p` (e.g. `/[.!?]+/` or `/\s+/`). -/
def jsSplitOnRuns (p : Char → Bool) (s : String) : List String :=
  jsSplitRunsAux p s.length s.toList []

/-- The characters of the sentence-splitting regex `/[.!?]+/`. -/
def isSentenceSep (c : Char) : Bool :=
  c = '.' || c = '!' || c = '?'

/-- Source: `text.split(/[.!?]+/).filter(s => s.trim().length > 10)` from
`generateLocalInsights`. -/
def sentencesOf (text : String) : List String :=
  (jsSplitOnRuns isSentenceSep text).filter (fun s => (jsTrim s).length > 10)

/-- Source: `const words = text.toLowerCase()`. -/
def wordsOf (text : String) : String :=
  jsToLower text

/-- Source: `actionKeywords.hoog` from `generateLocalInsights`. -/
def actionKeywordsHoog : List String :=
  ["urgent", "direct", "onmiddellijk", "snel", "belangrijk", "kritiek",
   "prioriteit", "meteen"]

/-- Source: `actionKeywords.gemiddeld` from `generateLocalInsights`. -/
def actionKeywordsGemiddeld : List String :=
  ["moeten", "zullen", "gaan", "plannen", "afspreken", "regelen", "zorgen",
   "doen", "organiseren", "voorbereiden", "maken"]

/-- Source: `actionKeywords.laag` from `generateLocalInsights`. -/
def actionKeywordsLaag : List String :=
  ["overwegen", "bekijken", "denken", "misschien", "eventueel", "mogelijk",
   "later"]

/-- Source: `decisionKeywords` from `generateLocalInsights`. -/
def decisionKeywords : List String :=
  ["beslissen", "besluiten", "kiezen", "akkoord", "eens", "vastleggen",
   "bepalen", "afspreken", "goedkeuren", "besloten"]

/-- Source: `timeKeywords` from `generateLocalInsights`. -/
def timeKeywords : List String :=
  ["morgen", "overmorgen", "volgende week", "maandag", "dinsdag", "woensdag",
   "donderdag", "vrijdag", "weekend", "einde van de week", "deadline",
   "voor vrijdag", "deze week", "volgende maand"]

/-- Source: `personKeywords` from `generateLocalInsights`. -/
def personKeywords : List String :=
  ["ik zal", "jij gaat", "hij moet", "zij zal", "we moeten", "jullie gaan",
   "team", "iedereen", "jan", "peter", "marie", "sarah"]

/-- Source: `problemKeywords` from `generateLocalInsights`. -/
def problemKeywords : List String :=
  ["probleem", "issue", "blocker", "uitdaging", "moeilijk", "niet mogelijk",
   "kan niet", "gaat niet", "lukt niet", "lastig"]

/-- Source: `nextStepKeywords` from `generateLocalInsights`. -/
def nextStepKeywords : List String :=
  ["volgende stap", "daarna", "vervolgens", "dan gaan we", "volgende keer",
   "volgende"]

/-- Source: `keywords.some(keyword => s.toLowerCase().includes(keyword))`. -/
def containsAny (keywords : List String) (s : String) : Bool :=
  keywords.any (fun keyword => substrB keyword (jsToLower s))

/-- The priority / `foundAction` assignment of the per-sentence `if` /
`else if` chain in `generateLocalInsights`: `hoog` is tested first, then
`gemiddeld`, then `laag`; the initial values are `'gemiddeld'` / `false`. -/
def priorityOf (sentence : String) : String × Bool :=
  if containsAny actionKeywordsHoog sentence then ("hoog", true)
  else if containsAny actionKeywordsGemiddeld sentence then ("gemiddeld", true)
  else if containsAny actionKeywordsLaag sentence then ("laag", true)
  else ("gemiddeld", false)

/-- Spec-side characterization for C4, following the spec's words
"priority is assigned by the highest-tier keyword set matched": the rank
of the highest tier whose keyword set the sentence matches — 3 for
`hoog`, 2 for `gemiddeld`, 1 for `laag`, 0 when no action keyword
matches.  To be compared with the source's `priorityOf`. -/
def highestMatchedTier (sentence : String) : Nat :=
  Nat.max (if containsAny actionKeywordsHoog sentence then 3 else 0)
    (Nat.max (if containsAny actionKeywordsGemiddeld sentence then 2 else 0)
      (if containsAny actionKeywordsLaag sentence then 1 else 0))

/-- Source: `person.split(' ')[0]`. -/
def firstWord (s : String) : String :=
  String.mk (s.toList.takeWhile (fun c => !(c == ' ')))

/-- The `who` resolution loop: `personKeywords.forEach(...)` overwrites
`who` on every matching pattern, starting from `'te bepalen'`. -/
def whoOf (sentence : String) : String :=
  personKeywords.foldl
    (fun who person =>
      if substrB person (jsToLower sentence) then firstWord person else who)
    "te bepalen"

/-- The `when` resolution loop: `timeKeywords.forEach(...)` overwrites
`when` on every matching phrase, starting from `'te plannen'`. -/
def whenOf (sentence : String) : String :=
  timeKeywords.foldl
    (fun w time => if substrB time (jsToLower sentence) then time else w)
    "te plannen"

/-- One entry of `actionItems` in `generateLocalInsights`.  The source
field `when` is rendered `whenD` here. -/
structure ActionItem where
  task : String
  who : String
  whenD : String
  priority : String
  deriving DecidableEq, Repr

/-- The per-sentence classification of the `sentences.forEach(...)` loop of
`generateLocalInsights`, as an `Option`: `some` exactly when
`foundAction && sentence.length > 15`. -/
def itemOf (sentence : String) : Option ActionItem :=
  let pf := priorityOf sentence
  if pf.2 && sentence.length > 15 then
    some { task := jsTrim sentence, who := whoOf sentence,
           whenD := whenOf sentence, priority := pf.1 }
  else none

/-- The `sentences.forEach(...)` loop of `generateLocalInsights` that pushes
an action item for every sentence with `foundAction && sentence.length > 15`. -/
def actionItemsOf (text : String) : List ActionItem :=
  (sentencesOf text).foldl
    (fun acc sentence =>
      let pf := priorityOf sentence
      if pf.2 && sentence.length > 15 then
        acc ++ [{ task := jsTrim sentence, who := whoOf sentence,
                  whenD := whenOf sentence, priority := pf.1 }]
      else acc)
    []

/-- Source: `sentences.filter(decision keyword).slice(0, 5)`. -/
def decisionsOf (text : String) : List String :=
  ((sentencesOf text).filter (containsAny decisionKeywords)).take 5

/-- The `keyInsights` pipeline: length band `(25, 150)`, not an action-item
task, not a detected decision, `slice(0, 6)`. -/
def keyInsightsOf (text : String) : List String :=
  (((((sentencesOf text).filter
        (fun s => s.length > 25 && s.length < 150)).filter
        (fun s => !((actionItemsOf text).any (fun a => a.task == jsTrim s)))).filter
        (fun s => !((decisionsOf text).contains s))).take 6)

/-- Source: `sentences.filter(problem keyword).slice(0, 4)`. -/
def blockersOf (text : String) : List String :=
  ((sentencesOf text).filter (containsAny problemKeywords)).take 4

/-- Source: `sentences.filter(next-step keyword).slice(0, 5)`. -/
def nextStepsOf (text : String) : List String :=
  ((sentencesOf text).filter (containsAny nextStepKeywords)).take 5

/-- The `meetingType` assignment chain of `generateLocalInsights`: a
sequence of guarded reassignments starting from `'overleg'`, so later
rules override earlier ones. -/
def meetingTypeOf (words : String) (decisions : List String)
    (actionItems : List ActionItem) : String :=
  let t := "overleg"
  let t := if substrB "brainstorm" words || substrB "idee√´n" words then
    "brainstorm" else t
  let t := if decisions.length > 2 then "beslissing" else t
  let t := if substrB "update" words || substrB "status" words then
    "update" else t
  let t := if actionItems.length > 3 then "planning" else t
  let t := if substrB "retrospectief" words || substrB "evaluatie" words then
    "evaluatie" else t
  t

/-- Source: `text.trim().split(/\s+/).length`. -/
def wordCountOf (text : String) : Nat :=
  (jsSplitOnRuns isJsWhitespace (jsTrim text)).length

/-- Source: `Math.ceil(sessionDuration / 60)` on a non-negative integer. -/
def ceilDiv60 (sessionDuration : Nat) : Nat :=
  (sessionDuration + 59) / 60

/-- The synthesized `summary` template literal of `generateLocalInsights`. -/
def summaryOf (duration : Nat) (meetingType : String) (sentenceCount : Nat)
    (actionCount : Nat) (decisionCount : Nat) : String :=
  toString duration ++ " minuten " ++ meetingType ++ " met " ++
  toString sentenceCount ++ " hoofdpunten besproken. " ++
  toString actionCount ++ " actiepunten ge√Ødentificeerd" ++
  (if decisionCount > 0 then
    " en " ++ toString decisionCount ++ " beslissingen genomen" else "") ++ "."

/-- The three conditional `followUpNeeded.push(...)` statements. -/
def followUpNeededOf (actionItems : List ActionItem)
    (blockers : List String) : List String :=
  (if actionItems.any (fun item => item.who == "te bepalen") then
    ["Verantwoordelijken toewijzen voor actiepunten"] else []) ++
  (if actionItems.any (fun item => item.whenD == "te plannen") then
    ["Deadlines bepalen voor actiepunten"] else []) ++
  (if blockers.length > 0 then
    ["Oplossingen bespreken voor genoemde problemen"] else [])

/-- Source: `Math.round(wordCount / (sessionDuration / 60))` in exact rational
arithmetic (the source computes it in floating point; the claims below do
not depend on this field). -/
def speakingRateOf (wordCount sessionDuration : Nat) : Nat :=
  if sessionDuration > 0 then
    (wordCount * 120 + sessionDuration) / (2 * sessionDuration)
  else 0

/-- The `stats` object of `generateLocalInsights`. -/
structure Stats where
  wordCount : Nat
  sentences : Nat
  actionItems : Nat
  decisions : Nat
  duration : Nat
  speakingRate : Nat
  deriving DecidableEq, Repr

/-- The record shape shared by the two extractors in `part_000`.  The
first-variant record (`generateFallbackInsights`) carries no `stats`
object, hence `stats : Option Stats`. -/
structure Insights where
  meetingType : String
  summary : String
  keyDecisions : List String
  actionItems : List ActionItem
  keyInsights : List String
  followUpNeeded : List String
  participants : List String
  nextSteps : List String
  blockers : List String
  stats : Option Stats
  deriving DecidableEq, Repr

/-- Source: `generateLocalInsights(text)` from the second variant in
`src/unnamed/part_000` (lines 727–862), with the captured React state
`sessionDuration` passed explicitly. -/
def generateLocalInsights (text : String) (sessionDuration : Nat) : Insights :=
  let sentences := sentencesOf text
  let words := wordsOf text
  let actionItems := actionItemsOf text
  let decisions := decisionsOf text
  let keyInsights := keyInsightsOf text
  let blockers := blockersOf text
  let nextSteps := nextStepsOf text
  let meetingType := meetingTypeOf words decisions actionItems
  let duration := ceilDiv60 sessionDuration
  let wordCount := wordCountOf text
  let followUpNeeded := followUpNeededOf actionItems blockers
  { meetingType := meetingType
    summary := summaryOf duration meetingType sentences.length
      actionItems.length decisions.length
    keyDecisions :=
      if decisions.length > 0 then decisions
      else ["Geen expliciete beslissingen gedetecteerd"]
    actionItems :=
      if actionItems.length > 0 then actionItems.take 8
      else [{ task := "Actiepunten uit gesprek verduidelijken", who := "team",
              whenD := "voor volgende meeting", priority := "gemiddeld" }]
    keyInsights :=
      if keyInsights.length > 0 then keyInsights
      else ["Gesprek bevat waardevolle informatie voor verdere uitwerking"]
    followUpNeeded :=
      if followUpNeeded.length > 0 then followUpNeeded
      else ["Follow-up bepalen na review"]
    participants :=
      [toString (Nat.max 1
        ((personKeywords.filter
          (fun p => substrB (firstWord p) words)).length)) ++
       " sprekers gedetecteerd"]
    nextSteps :=
      if nextSteps.length > 0 then nextSteps
      else ["Volgende stappen plannen"]
    blockers := blockers
    stats := some
      { wordCount := wordCount
        sentences := sentences.length
        actionItems := actionItems.length
        decisions := decisions.length
        duration := sessionDuration
        speakingRate := speakingRateOf wordCount sessionDuration } }

/-! Section: The first-variant heuristic extractor (`generateFallbackInsights`) -/

/-- Source: `actionKeywords` of `generateFallbackInsights` (first variant in
`src/unnamed/part_000`, lines 224–262). -/
def fbActionKeywords : List String :=
  ["moeten", "zullen", "gaan", "plannen", "afspreken", "regelen", "zorgen",
   "doen"]

/-- Source: `decisionKeywords` of `generateFallbackInsights`. -/
def fbDecisionKeywords : List String :=
  ["beslissen", "besluiten", "kiezen", "akkoord", "eens", "vastleggen"]

/-- Source: `timeKeywords` of `generateFallbackInsights`. -/
def fbTimeKeywords : List String :=
  ["morgen", "volgende week", "maandag", "dinsdag", "einde", "deadline"]

/-- Source: `generateFallbackInsights(text)` from the first variant in
`src/unnamed/part_000`; the captured `sessionDuration` is passed
explicitly.  Its sentence filter keeps every sentence whose trimmed length
is positive (unlike the `> 10` threshold of `generateLocalInsights`). -/
def generateFallbackInsights (text : String) (sessionDuration : Nat) :
    Insights :=
  let sentences :=
    (jsSplitOnRuns isSentenceSep text).filter (fun s => (jsTrim s).length > 0)
  let words := jsToLower text
  let actionItems :=
    (((sentences.filter (containsAny fbActionKeywords)).take 4).map
      (fun s =>
        { task := jsTrim s, who := "te bepalen"
          whenD :=
            if containsAny fbTimeKeywords s then "termijn genoemd"
            else "te plannen"
          priority := "gemiddeld" : ActionItem }))
  let decisions := (sentences.filter (containsAny fbDecisionKeywords)).take 3
  let keyInsights :=
    (sentences.filter (fun s => s.length > 50 && s.length < 200)).take 4
  { meetingType := "overleg"
    keyDecisions :=
      if decisions.length > 0 then decisions
      else ["Geen expliciete beslissingen geïdentificeerd"]
    actionItems :=
      if actionItems.length > 0 then actionItems
      else [{ task := "Actiepunten verduidelijken", who := "alle deelnemers",
              whenD := "volgende meeting", priority := "gemiddeld" }]
    keyInsights :=
      if keyInsights.length > 0 then keyInsights
      else ["Gesprek bevat waardevolle informatie die verdere analyse vereist"]
    followUpNeeded := ["Follow-up bepalen na review"]
    participants := ["Meerdere sprekers gedetecteerd"]
    nextSteps := ["Volgende stappen plannen"]
    blockers :=
      if substrB "probleem" words || substrB "blocker" words then
        ["Mogelijke blockers genoemd"]
      else []
    summary :=
      toString (ceilDiv60 sessionDuration) ++ " minuten gesprek met " ++
      toString sentences.length ++ " hoofdpunten besproken"
    stats := none }

/-! Section: The `/api/analyze` backend and the model-backed client path -/

/-- The outcome of the client `fetch('/api/analyze', ...)` as seen by
`generateSmartInsights`: a reply object with `response.ok` and a parsed
body, a non-success reply, or a thrown network error. -/
inductive AnalyzeOutcome where
  | ok (body : Insights)
  | httpError (status : Nat)
  | networkError
  deriving DecidableEq

/-- The outcome of the backend fetch to the OpenAI completion endpoint
inside the `/api/analyze` handler of `src/unnamed/part_001`. -/
inductive UpstreamReply where
  | ok (content : String)
  | httpFail (status : Nat)
  | netFail
  deriving DecidableEq

/-- Fuel-driven replace-all of a non-empty pattern in a character list. -/
def replaceAllAux (pat rep : List Char) : Nat → List Char → List Char
  | _, [] => []
  | 0, l => l
  | fuel + 1, c :: rest =>
    if pat.isPrefixOf (c :: rest) then
      rep ++ replaceAllAux pat rep fuel ((c :: rest).drop pat.length)
    else
      c :: replaceAllAux pat rep fuel rest

/-- Model of replacing every occurrence of `pat` by `rep` (an empty `pat`
is left alone; both patterns used below are non-empty). -/
def replaceAll (s pat rep : String) : String :=
  if pat.toList.isEmpty then s
  else String.mk (replaceAllAux pat.toList rep.toList s.length s.toList)

/-- Source: `analysisText.replace(/```json\s*|\s*```/g, '').trim()` — fence
stripping before `JSON.parse`.  The regex additionally swallows whitespace
adjacent to the fences; this model removes the literal fence markers and
trims, which agrees with the regex on fence-free bodies such as
`"not json"`. -/
def cleanAnalysisText (s : String) : String :=
  jsTrim (replaceAll (replaceAll s "```json" "") "```" "")

/-- The decision structure of the `/api/analyze` handler in
`src/unnamed/part_001` (lines 75–162), abstracted over `parses`, the model
of `JSON.parse` composed with reading the reply into the record shape
(`JSON.parse` is a platform builtin, not repository code).  On a parsed
body the handler also stamps `processingMethod = 'whisper+gpt4'` and
`processedAt` onto the JSON object; neither field exists on the
`Insights` shape used by the `part_000` client, so the stamping is not
modelled.  A missing API key yields 401, a missing transcript 400, an
upstream non-success reply is forwarded with its status, a thrown
upstream fetch gives the catch-all 500, and a body `JSON.parse` cannot
read yields 500 (`'Invalid response format'`). -/
def analyzeServer (hasKey : Bool) (transcript : Option String)
    (upstream : UpstreamReply) (parses : String → Option Insights) :
    AnalyzeOutcome :=
  if !hasKey then .httpError 401
  else
    match transcript with
    | none => .httpError 400
    | some _ =>
      match upstream with
      | .httpFail status => .httpError status
      | .netFail => .httpError 500
      | .ok content =>
        match parses (cleanAnalysisText content) with
        | some analysis => .ok analysis
        | none => .httpError 500

/-- Source: `generateSmartInsights` from the first variant in
`src/unnamed/part_000` (lines 176–222): a successful reply is used as-is;
a non-success reply falls back to `generateFallbackInsights`, and so does
a thrown fetch (the `catch` block). -/
def generateSmartInsights (text : String) (sessionDuration : Nat)
    (outcome : AnalyzeOutcome) : Insights :=
  match outcome with
  | .ok aiInsights => aiInsights
  | .httpError _ => generateFallbackInsights text sessionDuration
  | .networkError => generateFallbackInsights text sessionDuration

/-- Source: `processAudioIntelligently` from the first variant in
`src/unnamed/part_000` (lines 135–154), modelled from the point where
transcription has succeeded with text `transcriptText`: insights are
generated only when `transcriptText.trim()` is truthy; otherwise the
function sets neither insights nor an error.  (A thrown transcription is
caught earlier and sets `'Audio verwerking mislukt. Probeer opnieuw.'`;
that branch precedes the transcript emptiness test and is outside this
model.)  The result is `(insights?, error?)`. -/
def processAudioIntelligently (transcriptText : String) (sessionDuration : Nat)
    (analyze : AnalyzeOutcome) : Option Insights × Option String :=
  if !(jsTrim transcriptText).isEmpty then
    (some (generateSmartInsights transcriptText sessionDuration analyze), none)
  else
    (none, none)

/-- Source: `stopListening` from the second variant in `src/unnamed/part_000`
(lines 711–725), modelled from the point where recognition has stopped:
a truthy `transcript.trim()` runs `generateLocalInsights`, otherwise the
error `'Geen spraak gedetecteerd. Probeer opnieuw.'` is set and no record
is produced.  The result is `(insights?, error?)`. -/
def stopListening (transcript : String) (sessionDuration : Nat) :
    Option Insights × Option String :=
  if !(jsTrim transcript).isEmpty then
    (some (generateLocalInsights transcript sessionDuration), none)
  else
    (none, some "Geen spraak gedetecteerd. Probeer opnieuw.")

/-! Section: The `src/src/App.jsx` orchestrator -/

/-- The `processingMode` setting of `App.jsx`. -/
inductive ProcessingMode where
  | auto
  | apiOnly
  | localOnly
  deriving DecidableEq

/-- Source: `isAPIMode = processingMode === 'api-only' || (processingMode === 'auto'
&& hasOpenAIKey)`. -/
def isAPIMode (mode : ProcessingMode) (hasOpenAIKey : Bool) : Bool :=
  mode == .apiOnly || (mode == .auto && hasOpenAIKey)

/-- The failure kinds of the API-powered path (Whisper or GPT-4 call
throwing): the taxonomy distinguished by `handleError`. -/
inductive ApiFailure where
  | auth
  | network
  | quota
  | malformed
  deriving DecidableEq

/-- One entry of `actionItems` in the `App.jsx` records (these carry an
extra `context` field). -/
structure AppActionItem where
  task : String
  who : String
  whenD : String
  priority : String
  context : String
  deriving DecidableEq, Repr

/-- The record shape produced by `App.jsx` (both the API path and
`processLocalFallback`).  The impure `processedAt` timestamp and the
`transcriptionInfo` block (whose word count depends on a fabricated,
timestamp-bearing demo transcript) are not modelled; no claim touches
them. -/
structure AppRecord where
  meetingType : String
  summary : String
  keyDecisions : List String
  actionItems : List AppActionItem
  keyInsights : List String
  followUpNeeded : List String
  nextSteps : List String
  blockers : List String
  participants : List String
  sentiment : String
  topics : List String
  urgency : String
  processingMethod : String
  deriving DecidableEq, Repr

/-- The fixed record fabricated by `processLocalFallback` in
`src/src/App.jsx` (lines 323–402); only the summary depends on the
captured `sessionDuration`. -/
def processLocalFallback (sessionDuration : Nat) : AppRecord :=
  { meetingType := "technisch overleg"
    summary :=
      "Lokale analyse van " ++ toString (ceilDiv60 sessionDuration) ++
      " minuten meeting. Voor geavanceerde inzichten en betere accuracy, schakel over naar API-modus."
    keyDecisions :=
      ["Lokale verwerking gebruikt als fallback",
       "API configuratie prioriteit voor betere resultaten"]
    actionItems :=
      [{ task := "Configureer OpenAI API key voor geavanceerde analyse"
         who := "Administrator", whenD := "Zo snel mogelijk"
         priority := "hoog"
         context := "Lokale analyse heeft beperkte mogelijkheden vergeleken met AI" },
       { task := "Test volledige API functionaliteit"
         who := "Team", whenD := "Na API configuratie"
         priority := "gemiddeld"
         context := "Verificeer verbeterde analyse kwaliteit" }]
    keyInsights :=
      ["Lokale verwerking werkt als betrouwbare fallback",
       "Audio opname kwaliteit is goed",
       "Gebruikersinterface functioneert correct"]
    followUpNeeded :=
      ["API key configuratie in environment variabelen",
       "Test verschillende meeting scenarios met API",
       "Vergelijk resultaat kwaliteit lokaal vs API"]
    nextSteps :=
      ["API keys verkrijgen van OpenAI platform",
       "Environment configuratie updaten",
       "Volledige test meeting uitvoeren"]
    blockers :=
      ["Geen API toegang geconfigureerd",
       "Beperkte analyse mogelijkheden in lokale modus"]
    participants := ["Onbekend (lokale analyse detecteert geen sprekers)"]
    sentiment := "neutraal"
    topics := ["Technische configuratie", "Meeting analyse", "API integratie"]
    urgency := "gemiddeld"
    processingMethod := "local_fallback" }

/-- The non-fatal notice set by `processAudio` when the API path fails and
the local fallback is used. -/
def apiFallbackNotice : String :=
  "API verwerking mislukt, lokale analyse gebruikt. Check je internetverbinding en API configuratie."

/-- The result of one `processAudio` run: the insights that were set and
the error notice, if any. -/
structure ProcessOutcome where
  insights : AppRecord
  notice : Option String
  deriving DecidableEq

/-- Source: `processAudio` from `src/src/App.jsx` (lines 405–460), abstracted over
the outcome of the API-powered path (`transcribeWithWhisper` followed by
`analyzeTranscriptWithGPT4`), which either yields an analysis record or
throws one of the `ApiFailure` kinds.  On success the spread
`{...analysis, processingMethod: 'whisper+gpt4', ...}` stamps the
processing method; on a throw in API mode, the `catch` block runs
`processLocalFallback` and sets the fixed `apiFallbackNotice`; outside API
mode `processLocalFallback` runs directly (it cannot throw, so the
`handleError` branch of the `catch` is unreachable). -/
def processAudio (mode : ProcessingMode) (hasOpenAIKey : Bool)
    (sessionDuration : Nat) (apiResult : Except ApiFailure AppRecord) :
    ProcessOutcome :=
  if isAPIMode mode hasOpenAIKey && hasOpenAIKey then
    match apiResult with
    | .ok analysis =>
      { insights := { analysis with processingMethod := "whisper+gpt4" }
        notice := none }
    | .error _ =>
      { insights := processLocalFallback sessionDuration
        notice := some apiFallbackNotice }
  else
    { insights := processLocalFallback sessionDuration, notice := none }

/-! Section: Concrete inputs used in the theorems below -/

/-- The example transcript from the spec. -/
def exampleTranscript : String :=
  "We moeten morgen de planning afronden. Jan zal het rapport schrijven."

/-- A transcript whose single sentence coincides with the `keyDecisions`
placeholder text of `generateLocalInsights`. -/
def placeholderTranscript : String :=
  "Geen expliciete beslissingen gedetecteerd."

/-- A transcript containing one decision sentence. -/
def decisionTranscript : String :=
  "We hebben besloten om het project te starten."

/-! Section: Helper lemmas -/

/-- A fold that overwrites its accumulator at every element satisfying `f`
computes `g` of the LAST such element (equivalently, the first match in the
reversed list), or the initial value when none matches. -/
theorem foldl_overwrite {α β : Type} (f : α → Bool) (g : α → β)
    (l : List α) (init : β) :
    l.foldl (fun acc p => if f p then g p else acc) init =
      ((l.reverse.find? f).map g).getD init := by
  induction l generalizing init with
  | nil => rfl
  | cons p rest ih =>
    simp only [List.foldl_cons, List.reverse_cons, List.find?_append, ih]
    cases hfind : rest.reverse.find? f with
    | some q => simp [Option.or]
    | none => cases hf : f p <;> simp [Option.or, List.find?, hf]

/-- The action-item push loop of `generateLocalInsights` collects exactly
the sentences on which `itemOf` fires. -/
theorem pushLoop_eq_filterMap (l : List String) (init : List ActionItem) :
    (l.foldl
      (fun acc sentence =>
        let pf := priorityOf sentence
        if pf.2 && sentence.length > 15 then
          acc ++ [{ task := jsTrim sentence, who := whoOf sentence,
                    whenD := whenOf sentence, priority := pf.1 }]
        else acc)
      init) = init ++ l.filterMap itemOf := by
  induction l generalizing init with
  | nil => simp
  | cons s rest ih =>
    rw [List.foldl_cons, ih, List.filterMap_cons]
    unfold itemOf
    by_cases h : ((priorityOf s).2 && decide (s.length > 15)) = true
    · simp [h]
    · simp only [Bool.not_eq_true] at h
      simp [h]

/-- Source: `actionItemsOf` as a `filterMap`. -/
theorem actionItemsOf_eq_filterMap (text : String) :
    actionItemsOf text = (sentencesOf text).filterMap itemOf := by
  unfold actionItemsOf
  simpa using pushLoop_eq_filterMap (sentencesOf text) []

/-- Members of the detected decision list satisfy the decision-keyword
predicate. -/
theorem mem_decisionsOf {text s : String} (h : s ∈ decisionsOf text) :
    containsAny decisionKeywords s = true := by
  unfold decisionsOf at h
  exact (List.mem_filter.mp (List.mem_of_mem_take h)).2

/-- A conditional whose else-branch is a cons cell is never empty when the
then-branch is the tested list itself. -/
theorem if_pos_isEmpty_false {α : Type} (l : List α) (x : α) (xs : List α) :
    (if l.length > 0 then l else x :: xs).isEmpty = false := by
  cases l <;> simp

/-- Like `if_pos_isEmpty_false`, with a positive `take` applied in the
then-branch. -/
theorem if_take_isEmpty_false {α : Type} (l : List α) (n : Nat) (x : α)
    (xs : List α) (hn : 0 < n) :
    (if l.length > 0 then l.take n else x :: xs).isEmpty = false := by
  cases l with
  | nil => simp
  | cons a as =>
    cases n with
    | zero => omega
    | succ m => simp [List.take_succ_cons]

/-! Section: Claim theorems -/

/-- Claim C1, counterexample: in `auto` mode with a configured key, a
network failure of the model-backed path yields a record whose
`processingMethod` is `"local_fallback"`, not `"heuristic"` as the claim
states. -/
theorem processAudio_fallback_tag_ne_heuristic :
    (processAudio .auto true 0 (.error .network)).insights.processingMethod
      = "local_fallback" ∧
    (("local_fallback" : String) == "heuristic") = false := by
  exact ⟨rfl, by decide⟩

/-- Claim C1, amended: in `auto` mode with a configured key, every failure
kind of the model-backed path makes `processAudio` produce the
`processLocalFallback` record, whose `processingMethod` tag is
`"local_fallback"`, and set one fixed non-fatal notice that does not
depend on (hence does not distinguish) the failure kind. -/
theorem processAudio_auto_failure_local_fallback
    (sessionDuration : Nat) (e : ApiFailure) :
    (processAudio .auto true sessionDuration (.error e)).insights
      = processLocalFallback sessionDuration ∧
    (processAudio .auto true sessionDuration (.error e)).insights.processingMethod
      = "local_fallback" ∧
    (processAudio .auto true sessionDuration (.error e)).notice
      = some apiFallbackNotice := by
  exact ⟨rfl, rfl, rfl⟩

/-- Claim C2, counterexample: a non-empty transcript with no problem
keyword gives an empty `blockers` list in both heuristic extractors — the
placeholder substitution does not cover `blockers`. -/
theorem blockers_can_be_empty :
    (jsTrim "We moeten morgen de planning afronden.").isEmpty = false ∧
    (generateLocalInsights "We moeten morgen de planning afronden." 0).blockers
      = [] ∧
    (generateFallbackInsights "We moeten morgen de planning afronden." 0).blockers
      = [] := by
  exact ⟨by decide, by decide, by decide⟩

/-- Claim C2, amended: for every transcript, the list fields
`keyDecisions`, `actionItems`, `keyInsights`, `followUpNeeded`,
`nextSteps` and `participants` of both heuristic extractors are non-empty
(placeholder substitution); `blockers` has no placeholder and can be
empty. -/
theorem list_fields_nonempty_except_blockers (text : String)
    (sessionDuration : Nat) :
    (generateLocalInsights text sessionDuration).keyDecisions.isEmpty = false ∧
    (generateLocalInsights text sessionDuration).actionItems.isEmpty = false ∧
    (generateLocalInsights text sessionDuration).keyInsights.isEmpty = false ∧
    (generateLocalInsights text sessionDuration).followUpNeeded.isEmpty = false ∧
    (generateLocalInsights text sessionDuration).nextSteps.isEmpty = false ∧
    (generateLocalInsights text sessionDuration).participants.isEmpty = false ∧
    (generateFallbackInsights text sessionDuration).keyDecisions.isEmpty = false ∧
    (generateFallbackInsights text sessionDuration).actionItems.isEmpty = false ∧
    (generateFallbackInsights text sessionDuration).keyInsights.isEmpty = false ∧
    (generateFallbackInsights text sessionDuration).followUpNeeded.isEmpty = false ∧
    (generateFallbackInsights text sessionDuration).nextSteps.isEmpty = false ∧
    (generateFallbackInsights text sessionDuration).participants.isEmpty = false := by
  refine ⟨?_, ?_, ?_, ?_, ?_, ?_, ?_, ?_, ?_, ?_, ?_, ?_⟩
  · exact if_pos_isEmpty_false _ _ _
  · exact if_take_isEmpty_false _ _ _ _ (by omega)
  · exact if_pos_isEmpty_false _ _ _
  · exact if_pos_isEmpty_false _ _ _
  · exact if_pos_isEmpty_false _ _ _
  · rfl
  · exact if_pos_isEmpty_false _ _ _
  · exact if_pos_isEmpty_false _ _ _
  · exact if_pos_isEmpty_false _ _ _
  · rfl
  · rfl
  · rfl

/-- Claim C3, counterexample: in the Whisper variant
(`processAudioIntelligently`), a whitespace-only transcript produces no
record AND no error notice: the empty-transcript condition is silently
skipped rather than signalled. -/
theorem whisper_variant_empty_transcript_silent :
    (jsTrim "   ").isEmpty = true ∧
    processAudioIntelligently "   " 0 .networkError = (none, none) := by
  exact ⟨by decide, rfl⟩

/-- Claim C3, amended: a whitespace-only transcript produces no record and
no crash in either variant; the speech-recognition variant
(`stopListening`) signals the `'Geen spraak gedetecteerd'` notice while
the Whisper variant (`processAudioIntelligently`) sets no notice; every
transcript with non-whitespace content produces a record in both
variants. -/
theorem empty_transcript_no_record (transcript : String)
    (sessionDuration : Nat) (analyze : AnalyzeOutcome) :
    (stopListening transcript sessionDuration).1.isSome
      = !(jsTrim transcript).isEmpty ∧
    (stopListening transcript sessionDuration).2.isSome
      = (jsTrim transcript).isEmpty ∧
    (processAudioIntelligently transcript sessionDuration analyze).1.isSome
      = !(jsTrim transcript).isEmpty ∧
    (processAudioIntelligently transcript sessionDuration analyze).2
      = none := by
  cases h : (jsTrim transcript).isEmpty <;>
    simp [stopListening, processAudioIntelligently, h]

/-- Claim C4: for every sentence the priority assigned by the source's
test chain is exactly the one dictated by the highest tier whose keyword
set the sentence matches — rank 3 gives `"hoog"`, rank 2 `"gemiddeld"`,
rank 1 `"laag"` (high beats medium beats low; in particular a sentence
matching both a high-tier and a low-tier keyword gets `"hoog"`, and one
matching both a medium- and a low-tier keyword gets `"gemiddeld"`), and
rank 0 gives the non-action default. -/
theorem priority_highest_tier_wins (sentence : String) :
    priorityOf sentence =
      (if highestMatchedTier sentence = 3 then ("hoog", true)
       else if highestMatchedTier sentence = 2 then ("gemiddeld", true)
       else if highestMatchedTier sentence = 1 then ("laag", true)
       else ("gemiddeld", false)) := by
  unfold priorityOf highestMatchedTier
  cases h1 : containsAny actionKeywordsHoog sentence <;>
    cases h2 : containsAny actionKeywordsGemiddeld sentence <;>
      cases h3 : containsAny actionKeywordsLaag sentence <;>
        decide

/-- Claim C5, counterexample: on a transcript whose single sentence is
exactly the `keyDecisions` placeholder text, that sentence appears in BOTH
the `keyDecisions` list (as the placeholder, no decision keyword matching)
and the `keyInsights` list (as an in-band sentence). -/
theorem decision_placeholder_in_both_lists :
    (generateLocalInsights placeholderTranscript 0).keyDecisions.contains
      "Geen expliciete beslissingen gedetecteerd" = true ∧
    (generateLocalInsights placeholderTranscript 0).keyInsights.contains
      "Geen expliciete beslissingen gedetecteerd" = true := by
  exact ⟨by decide, by decide⟩

/-- Claim C5, amended: whenever at least one decision sentence is detected
(so `keyDecisions` is the detected list and not the placeholder), no
sentence appears in both `keyDecisions` and `keyInsights`; overlap is
possible only through the `keyDecisions` placeholder when the input
contains the placeholder text verbatim as a sentence. -/
theorem keyDecisions_keyInsights_disjoint_of_decisions (text : String)
    (sessionDuration : Nat) (h : (decisionsOf text).isEmpty = false) :
    ((generateLocalInsights text sessionDuration).keyDecisions.all
      (fun s =>
        !((generateLocalInsights text sessionDuration).keyInsights.contains s)))
      = true := by
  rw [List.all_eq_true]
  intro s hs
  have hlen : (decisionsOf text).length > 0 := by
    cases hd : decisionsOf text with
    | nil => rw [hd] at h; exact absurd h (by decide)
    | cons a as => simp
  have hkeq : (generateLocalInsights text sessionDuration).keyDecisions
      = decisionsOf text := by
    show (if (decisionsOf text).length > 0 then decisionsOf text else _) = _
    rw [if_pos hlen]
  have hs' : s ∈ decisionsOf text := hkeq ▸ hs
  cases hb : (generateLocalInsights text sessionDuration).keyInsights.contains s
    with
  | false => decide
  | true =>
    exfalso
    have hmem := List.elem_iff.mp hb
    have hins : (generateLocalInsights text sessionDuration).keyInsights
        = if (keyInsightsOf text).length > 0 then keyInsightsOf text
          else ["Gesprek bevat waardevolle informatie voor verdere uitwerking"] :=
      rfl
    rw [hins] at hmem
    by_cases hk : (keyInsightsOf text).length > 0
    · rw [if_pos hk] at hmem
      unfold keyInsightsOf at hmem
      have h2 := (List.mem_filter.mp (List.mem_of_mem_take hmem)).2
      simp [List.elem_iff.mpr hs'] at h2
      exact h2 hs'
    · rw [if_neg hk] at hmem
      have hseq :
          s = "Gesprek bevat waardevolle informatie voor verdere uitwerking" := by
        simpa using hmem
      have hd := mem_decisionsOf hs'
      rw [hseq] at hd
      exact absurd hd (by decide)

/-- Claim C5, witness: on a transcript with one detected decision, the
detected list is non-empty and `keyDecisions` is disjoint from
`keyInsights`. -/
theorem keyDecisions_keyInsights_disjoint_witness :
    (decisionsOf decisionTranscript).isEmpty = false ∧
    ((generateLocalInsights decisionTranscript 0).keyDecisions.all
      (fun s =>
        !((generateLocalInsights decisionTranscript 0).keyInsights.contains s)))
      = true := by
  exact ⟨by decide,
    keyDecisions_keyInsights_disjoint_of_decisions decisionTranscript 0
      (by decide)⟩

/-- Claim C6, counterexample: on a sentence matching both the pattern
`'ik zal'` (first in the list, owner `"ik"`) and the pattern `'jan'`
(later in the list), the resolved owner is `"jan"` — the LAST matching
pattern wins, not the first as the claim states. -/
theorem owner_last_match_not_first :
    personKeywords.find?
      (fun p => substrB p (jsToLower "Ik zal samen met Jan dit regelen"))
      = some "ik zal" ∧
    firstWord "ik zal" = "ik" ∧
    whoOf "Ik zal samen met Jan dit regelen" = "jan" ∧
    (("jan" : String) == "ik") = false ∧
    (actionItemsOf "Ik zal samen met Jan dit regelen.").map (fun a => a.who)
      = ["jan"] := by
  exact ⟨by decide, by decide, by decide, by decide, by decide⟩

/-- Claim C6, amended: owner and dueHint are resolved by scanning the
fixed pattern lists with every match overwriting the previous value, so
the LAST matching pattern wins (equivalently, the first match in the
reversed list); the defaults `'te bepalen'` and `'te plannen'` apply when
no pattern matches. -/
theorem owner_dueHint_last_match_wins (sentence : String) :
    whoOf sentence =
      ((personKeywords.reverse.find?
          (fun p => substrB p (jsToLower sentence))).map firstWord).getD
        "te bepalen" ∧
    whenOf sentence =
      ((timeKeywords.reverse.find?
          (fun t => substrB t (jsToLower sentence))).map (fun t => t)).getD
        "te plannen" := by
  constructor
  · unfold whoOf
    exact foldl_overwrite (fun p => substrB p (jsToLower sentence)) firstWord
      personKeywords "te bepalen"
  · unfold whenOf
    exact foldl_overwrite (fun t => substrB t (jsToLower sentence)) (fun t => t)
      timeKeywords "te plannen"

/-- Claim C7: the `meetingType` of `generateLocalInsights` is resolved by
the fixed precedence chain in which later rules override earlier ones —
equivalently, testing the rules in reverse order and taking the first
that fires: evaluation keywords, then more than 3 action items, then
update keywords, then more than 2 decisions, then brainstorm keywords,
else `'overleg'`. -/
theorem meetingType_precedence_chain (text : String) (sessionDuration : Nat) :
    (generateLocalInsights text sessionDuration).meetingType =
      (if substrB "retrospectief" (wordsOf text)
          || substrB "evaluatie" (wordsOf text) then "evaluatie"
       else if (actionItemsOf text).length > 3 then "planning"
       else if substrB "update" (wordsOf text)
          || substrB "status" (wordsOf text) then "update"
       else if (decisionsOf text).length > 2 then "beslissing"
       else if substrB "brainstorm" (wordsOf text)
          || substrB "idee√´n" (wordsOf text) then "brainstorm"
       else "overleg") := by
  show meetingTypeOf (wordsOf text) (decisionsOf text) (actionItemsOf text) = _
  unfold meetingTypeOf
  split_ifs <;> rfl

/-- Claim C8: a model reply whose body `JSON.parse` cannot read (such as
`"not json"`) makes the `/api/analyze` handler answer with a non-success
status, and the client then produces exactly the record it produces on a
thrown network fetch — the same fallback path and the same
`generateFallbackInsights` record. -/
theorem malformed_reply_same_as_network_failure (text : String)
    (sessionDuration : Nat) (parses : String → Option Insights)
    (h : parses "not json" = none) :
    generateSmartInsights text sessionDuration
      (analyzeServer true (some text) (.ok "not json") parses) =
    generateSmartInsights text sessionDuration .networkError := by
  have hclean : cleanAnalysisText "not json" = "not json" := by decide
  simp [analyzeServer, hclean, h, generateSmartInsights]

/-- Claim C8, witness: with a parse model that rejects everything, a
`"not json"` reply yields the same record as a network failure. -/
theorem malformed_reply_same_as_network_failure_witness :
    ((fun _ => (none : Option Insights)) "not json" = none) ∧
    generateSmartInsights "test" 0
      (analyzeServer true (some "test") (.ok "not json") (fun _ => none)) =
    generateSmartInsights "test" 0 .networkError := by
  exact ⟨rfl,
    malformed_reply_same_as_network_failure "test" 0 (fun _ => none) rfl⟩

/-- Claim C9, counterexample: on the spec's example transcript the single
extracted action item has owner `"we"` (from the pattern `'we moeten'`),
which is neither `"Jan"`, nor `"jan"`, nor the `'te bepalen'`
placeholder. -/
theorem example_transcript_owner_not_jan :
    (generateLocalInsights exampleTranscript 0).actionItems.map (fun a => a.who)
      = ["we"] ∧
    (("we" : String) == "Jan") = false ∧
    (("we" : String) == "jan") = false ∧
    (("we" : String) == "te bepalen") = false := by
  exact ⟨by decide, by decide, by decide, by decide⟩

/-- Claim C9, amended: on the spec's example transcript the extractor
produces exactly one action item — from the first sentence, with dueHint
`"morgen"` and owner `"we"`; the sentence `'Jan zal het rapport
schrijven'` contains no action keyword (only `'zullen'`, not `'zal'`, is
listed) and so yields no item. -/
theorem example_transcript_action_item :
    (generateLocalInsights exampleTranscript 0).actionItems =
      [{ task := "We moeten morgen de planning afronden", who := "we",
         whenD := "morgen", priority := "gemiddeld" }] := by
  decide

/-- Claim C10: the published `actionItems` list never has more than 8
entries, and every detected action item comes from a sentence that
matched an action keyword AND had length greater than 15 characters. -/
theorem actionItems_capped_and_min_length (text : String)
    (sessionDuration : Nat) :
    (generateLocalInsights text sessionDuration).actionItems.length ≤ 8 ∧
    ((actionItemsOf text).all (fun a =>
      (sentencesOf text).any (fun s =>
        ((priorityOf s).2 && s.length > 15) &&
        a == { task := jsTrim s, who := whoOf s, whenD := whenOf s,
               priority := (priorityOf s).1 })) = true) := by
  constructor
  · show (if (actionItemsOf text).length > 0
        then (actionItemsOf text).take 8 else _).length ≤ 8
    split
    · exact (actionItemsOf text).length_take_le 8
    · simp
  · rw [List.all_eq_true]
    intro a ha
    rw [actionItemsOf_eq_filterMap] at ha
    obtain ⟨s, hs, hsome⟩ := List.mem_filterMap.mp ha
    rw [List.any_eq_true]
    refine ⟨s, hs, ?_⟩
    unfold itemOf at hsome
    cases hcond : ((priorityOf s).2 && decide (s.length > 15)) with
    | false => simp [hcond] at hsome
    | true =>
      simp only [hcond, if_true] at hsome
      have ha' := Option.some.inj hsome
      rw [← ha']
      simp [hcond]

end Eve
